import Mathlib

/-!
Shallow embedding of the scaffolding / documentation-generation engine of the
Confidential-Supplier-Management-System repository.

The three scripts embedded here are:
  * `scripts/create-fhevm-example.ts`  (single-example materializer),
  * `scripts/create-fhevm-category.ts` (category bundler),
  * `scripts/generate-docs.ts`         (documentation generator).

File-system state is passed explicitly: the repository's payload directories
(`contracts/`, `test/`) are association lists from file name to file content,
the base template is an inductive directory tree, and the non-deterministic
`new Date().toISOString()` value is an explicit `now : String` argument.
Console output matters for some claims, so warnings (`console.warn`) emitted
by an operation are collected in the operation's result.
-/

set_option maxHeartbeats 1000000
set_option maxRecDepth 10000

namespace SupplierHub

/-- JSON values, as produced by `JSON.parse`.  Objects keep their key order
(JS object property order), which `JSON.stringify` preserves. -/
inductive Json where
  | str : String → Json
  | num : Int → Json
  | jbool : Bool → Json
  | jnull : Json
  | arr : List Json → Json
  | obj : List (String × Json) → Json

/-- JS property assignment `o[k] = v` on an object represented as an ordered
association list with unique keys: replace the value at the first occurrence
of `k` (keeping its position), or append `(k, v)` at the end. -/
def setPair (m : List (String × Json)) (k : String) (v : Json) : List (String × Json) :=
  match m with
  | [] => [(k, v)]
  | (k', v') :: rest => if k' = k then (k', v) :: rest else (k', v') :: setPair rest k v

/-- `documentation` block of a registry entry. -/
structure DocInfo where
  overview : String
  keyFeatures : List String
  learningOutcomes : List String
deriving DecidableEq

/-- One entry of `EXAMPLES_MAP` in `create-fhevm-example.ts`. -/
structure ExampleConfig where
  name : String
  description : String
  category : String
  contractFile : String
  testFile : String
  complexity : String
  keywords : List String
  documentation : DocInfo
deriving DecidableEq

/-- One entry of `DOCS_CONFIG` in `generate-docs.ts`. -/
structure DocsConfig where
  contractPath : String
  testPath : String
  outputPath : String
  category : String
  complexity : String
  estimatedTime : String
deriving DecidableEq

/-- One entry of `CATEGORIES` in `create-fhevm-category.ts`. -/
structure CategoryConfig where
  name : String
  description : String
  examples : List String
  keyTopics : List String
deriving DecidableEq

/-- The repository's payload directories, read by the materializer and the
bundler: `contracts/` and `test/`, each a map file-name ↦ file content.
`fs.existsSync` on a payload path is `(List.lookup file _).isSome`. -/
structure RepoFs where
  contracts : List (String × String)
  tests : List (String × String)
deriving DecidableEq

/-- The `"confidential-supplier-management"` entry of `EXAMPLES_MAP`. -/
def supplierCfg : ExampleConfig :=
  { name := "Confidential Supplier Management System"
    description := "Privacy-preserving supplier management with encrypted ratings and comparisons"
    category := "enterprise"
    contractFile := "SupplierManagement.sol"
    testFile := "SupplierManagement.ts"
    complexity := "advanced"
    keywords := ["access-control", "privacy", "enterprise", "supplier-management"]
    documentation :=
      { overview := "Demonstrates FHE-based supplier management with encrypted ratings, access control, and privacy-preserving operations."
        keyFeatures :=
          [ "Encrypted supplier ratings (euint8)"
          , "Privacy-preserving comparisons"
          , "Owner-only decryption access"
          , "Async callback-based decryption"
          , "Proper FHE permission handling" ]
        learningOutcomes :=
          [ "How to encrypt sensitive business data"
          , "Managing permissions for encrypted values"
          , "Implementing access control patterns"
          , "Async decryption workflows"
          , "Real-world enterprise applications of FHE" ] } }

/-- The `"fhe-counter"` entry of `EXAMPLES_MAP`. -/
def fheCounterCfg : ExampleConfig :=
  { name := "FHE Counter"
    description := "Simple encrypted counter demonstrating basic FHE operations"
    category := "basic"
    contractFile := "FHECounter.sol"
    testFile := "FHECounter.ts"
    complexity := "beginner"
    keywords := ["counter", "arithmetic", "encryption"]
    documentation :=
      { overview := "Demonstrates simple FHE counter with increment and decrement operations."
        keyFeatures :=
          [ "Encrypted counter state"
          , "Arithmetic operations on encrypted values"
          , "Basic permission handling"
          , "Event logging" ]
        learningOutcomes :=
          [ "How to work with encrypted integers"
          , "Basic FHE operations (add, subtract)"
          , "Permission management"
          , "Testing FHE contracts" ] } }

/-- `EXAMPLES_MAP` from `create-fhevm-example.ts` (insertion order preserved,
as `Object.entries` / `Object.keys` iterate it). -/
def EXAMPLES_MAP : List (String × ExampleConfig) :=
  [ ("confidential-supplier-management", supplierCfg)
  , ("fhe-counter", fheCounterCfg) ]

/-- The `"confidential-supplier-management"` entry of `DOCS_CONFIG`. -/
def supplierDocsCfg : DocsConfig :=
  { contractPath := "./contracts/SupplierManagement.sol"
    testPath := "./test/SupplierManagement.ts"
    outputPath := "./docs/enterprise/confidential-supplier-management.md"
    category := "enterprise"
    complexity := "advanced"
    estimatedTime := "30-45 minutes" }

/-- The `"fhe-counter"` entry of `DOCS_CONFIG`. -/
def fheCounterDocsCfg : DocsConfig :=
  { contractPath := "./contracts/EncryptedContract.sol"
    testPath := "./test/EncryptedContract.ts"
    outputPath := "./docs/basic/fhe-counter.md"
    category := "basic"
    complexity := "beginner"
    estimatedTime := "15-20 minutes" }

/-- `DOCS_CONFIG` from `generate-docs.ts`. -/
def DOCS_CONFIG : List (String × DocsConfig) :=
  [ ("confidential-supplier-management", supplierDocsCfg)
  , ("fhe-counter", fheCounterDocsCfg) ]

/-- `CATEGORIES` from `create-fhevm-category.ts`. -/
def CATEGORIES : List (String × CategoryConfig) :=
  [ ("enterprise",
      { name := "Enterprise Applications"
        description := "Production-grade FHE examples for business applications"
        examples := ["confidential-supplier-management"]
        keyTopics :=
          [ "Privacy-preserving business logic"
          , "Access control patterns"
          , "Enterprise data protection"
          , "Real-world FHE applications" ] })
  , ("basic",
      { name := "Basic Examples"
        description := "Foundational FHEVM concepts and operations"
        examples := ["fhe-counter"]
        keyTopics :=
          [ "Encryption basics"
          , "Arithmetic operations"
          , "Permission management"
          , "Testing FHE contracts" ] }) ]

/-- `exampleName.replace(/_/g, "-")`: every underscore becomes a hyphen. -/
def hyphenate (s : String) : String :=
  String.map (fun c => if c = '_' then '-' else c) s

/-- `s.charAt(0).toUpperCase() + s.slice(1)` (ASCII inputs). -/
def capFirst (s : String) : String :=
  match s.data with
  | [] => ""
  | c :: rest => String.mk (c.toUpper :: rest)

/-- `s.toUpperCase()` (ASCII inputs). -/
def upperStr (s : String) : String :=
  String.map Char.toUpper s

end SupplierHub

namespace SupplierHub

/-! ### Extractor: `extractTestInfo` of `generate-docs.ts`

The scan embeds the JS regex `it\(['"]([^'"]+)['"]/g` (the character classes
also contain a backtick) together with `exec`'s cursor semantics: matches are
found left to right, each search resumes after the end of the previous match,
and a failed attempt advances one character. -/

/-- The single-quote character. -/
def squoteC : Char := Char.ofNat 39

/-- The backtick character. -/
def bquoteC : Char := Char.ofNat 96

/-- Membership in the regex character class of the three JS quote kinds. -/
def isQuoteC (c : Char) : Bool := c == squoteC || c == '"' || c == bquoteC

/-- One attempt of the regex at the head of the input: `it(` followed by a
quote, then a non-empty maximal run of non-quote characters (`[^'"]+`, greedy,
backtick also excluded), then any closing quote.  Returns the captured title
and the remainder after the closing quote. -/
def matchIt : List Char → Option (List Char × List Char)
  | 'i' :: 't' :: '(' :: q :: rest =>
    if isQuoteC q then
      match rest.span (fun c => !(isQuoteC c)) with
      | (tit, q2 :: rest2) =>
        if tit.isEmpty then none
        else if isQuoteC q2 then some (tit, rest2) else none
      | (_, []) => none
    else none
  | _ => none

/-- A successful match consumes at least one character of the input. -/
theorem matchIt_shrink {l t r : List Char} (h : matchIt l = some (t, r)) :
    r.length < l.length := by
  unfold matchIt at h
  split at h
  case h_1 q rest =>
    split at h
    · split at h
      case h_1 _x tit q2 rest2 hspan =>
        split at h
        · exact absurd h (by simp)
        · split at h
          · have h2 : r = rest2 := by
              have h3 := h
              simp at h3
              exact h3.2.symm
            rw [h2]
            have hdw : (q2 :: rest2).length ≤ rest.length := by
              have hs : rest.dropWhile (fun c => !(isQuoteC c)) = q2 :: rest2 := by
                have h4 := congrArg Prod.snd hspan
                simpa [List.span_eq_take_drop] using h4
              calc (q2 :: rest2).length = (rest.dropWhile (fun c => !(isQuoteC c))).length := by
                    rw [hs]
                _ ≤ rest.length := (List.dropWhile_sublist _).length_le
            simp [List.length_cons] at hdw ⊢
            omega
          · exact absurd h (by simp)
      case h_2 => exact absurd h (by simp)
    · exact absurd h (by simp)
  case h_2 => exact absurd h (by simp)

/-- The `while ((match = testRegex.exec(content)) !== null)` loop. -/
def scanGo : Nat → List Char → List String
  | _, [] => []
  | 0, _ :: _ => []
  | fuel + 1, c :: rest =>
    match matchIt (c :: rest) with
    | some (tit, rest2) => String.mk tit :: scanGo fuel rest2
    | none => scanGo fuel rest

/-- The fuel argument of `scanGo` is irrelevant once it reaches the input
length: every iteration consumes at least one character
(`matchIt_shrink`), so `scanGo l.length l` runs the loop to completion. -/
theorem scanGo_congr :
    ∀ (f1 : Nat) (f2 : Nat) (l : List Char), l.length ≤ f1 → l.length ≤ f2 →
      scanGo f1 l = scanGo f2 l := by
  intro f1
  induction f1 with
  | zero =>
    intro f2 l h1 _
    have : l = [] := List.eq_nil_of_length_eq_zero (Nat.le_zero.mp h1)
    subst this
    cases f2 <;> rfl
  | succ a ih =>
    intro f2 l h1 h2
    cases l with
    | nil => cases f2 <;> rfl
    | cons c rest =>
      cases f2 with
      | zero => simp at h2
      | succ b =>
        simp only [scanGo]
        rcases hm : matchIt (c :: rest) with _ | ⟨tit, rest2⟩
        · simp only []
          have hr : rest.length ≤ a := by
            simp [List.length_cons] at h1
            omega
          have hr2 : rest.length ≤ b := by
            simp [List.length_cons] at h2
            omega
          exact ih b rest hr hr2
        · simp only []
          have hs := matchIt_shrink hm
          have hr : rest2.length ≤ a := by
            simp [List.length_cons] at hs h1
            omega
          have hr2 : rest2.length ≤ b := by
            simp [List.length_cons] at hs h2
            omega
          rw [ih b rest2 hr hr2]

/-- The scan over the whole input, with provably sufficient fuel. -/
def scanTitles (l : List Char) : List String := scanGo l.length l

/-- `extractTestInfo`'s `testCases` component, as a function of the test
file's text. -/
def extractTestCaseTitles (s : String) : List String := scanTitles s.data

/-- `extractTestInfo(filePath)`: a missing file yields `([], "")`; otherwise
the title scan plus the `coverage` summary string. -/
def extractTestInfoFn (content : Option String) : List String × String :=
  match content with
  | none => ([], "")
  | some s =>
    let testCases := extractTestCaseTitles s
    (testCases, "Total test cases: " ++ toString testCases.length)

end SupplierHub

namespace SupplierHub

/-! ### Recursive template copy (`copyDirectory` in both generator scripts)

A directory tree is an inductive value; `copyFrom skip entries` returns the
relative path and content of every regular file the recursive copy writes,
in traversal order.  Both scripts test the exclusion set against
`entry.name` before dispatching on the entry kind, so the set applies to
files as well as directories, at every depth. -/

/-- A directory entry of the base template tree. -/
inductive FsEntry where
  | file : String → String → FsEntry
  | dir : String → List FsEntry → FsEntry

/-- Exclusion set of `copyDirectory` in `create-fhevm-example.ts`. -/
def skipExample : List String := ["node_modules", "artifacts", "cache", ".git"]

/-- Exclusion set of `copyDirectory` in `create-fhevm-category.ts`. -/
def skipBundler : List String :=
  ["node_modules", "artifacts", "cache", ".git", "contracts", "test"]

/-- The files written by the recursive copy, as (relative path, content). -/
def copyFrom (skip : List String) : List FsEntry → List (List String × String)
  | [] => []
  | .file n c :: rest =>
    (if n ∈ skip then [] else [([n], c)]) ++ copyFrom skip rest
  | .dir n es :: rest =>
    (if n ∈ skip then [] else (copyFrom skip es).map (fun pc => (n :: pc.1, pc.2))) ++
      copyFrom skip rest

/-- Every component of every path produced by the recursive copy avoids the
exclusion set: an excluded name is skipped at any depth. -/
theorem copyFrom_avoids_skip (skip : List String) :
    ∀ (l : List FsEntry) (p : List String) (c : String),
      (p, c) ∈ copyFrom skip l → ∀ comp ∈ p, comp ∉ skip := by
  intro l
  induction l using copyFrom.induct skip with
  | case1 => intro p c hp; simp [copyFrom] at hp
  | case2 n c rest ih =>
    intro p cc hp
    simp only [copyFrom, List.mem_append] at hp
    rcases hp with hp | hp
    · split at hp
      · simp at hp
      · rename_i hn
        simp at hp
        intro comp hcomp
        rcases hp with ⟨hp1, _⟩
        rw [hp1] at hcomp
        simp at hcomp
        rw [hcomp]
        exact hn
    · exact ih p cc hp
  | case3 n es rest ih1 ih2 =>
    intro p cc hp
    simp only [copyFrom, List.mem_append] at hp
    rcases hp with hp | hp
    · split at hp
      · simp at hp
      · rename_i hn
        simp only [List.mem_map] at hp
        rcases hp with ⟨⟨p', c'⟩, hmem, heq⟩
        intro comp hcomp
        have hp1 : p = n :: p' := by
          have := congrArg Prod.fst heq
          simpa using this.symm
        rw [hp1] at hcomp
        rcases List.mem_cons.mp hcomp with hcomp | hcomp
        · rw [hcomp]; exact hn
        · have hcc : c' = cc := by
            have := congrArg Prod.snd heq
            simpa using this
          exact ih1 p' c' hmem comp hcomp
    · exact ih2 p cc hp

end SupplierHub

namespace SupplierHub

/-! ### Materializer: `create-fhevm-example.ts`

`createExample` resolves the example, copies the base template, copies the
payload files that exist on disk, patches `package.json`, and writes
`README.md` and `.fhevm-example.json`.  It prints progress with
`console.log`; it has no `console.warn` call, so the `warnings` field of a
successful run is always empty.  `updatePackageJson` reads the destination's
`package.json`, which at that point is the template's manifest (the template
copy in step 2 has just written it), so the manifest is a parameter here. -/

/-- The nested `fhevmExample` metadata object appended by `updatePackageJson`. -/
def fhevmExampleMeta (config : ExampleConfig) (now : String) : Json :=
  .obj [ ("name", .str config.name)
       , ("category", .str config.category)
       , ("complexity", .str config.complexity)
       , ("generatedAt", .str now) ]

/-- `updatePackageJson`: patch `name`, `description`, `keywords` and append
the `fhevmExample` object; all four by JS property assignment. -/
def updatePackageJsonFn (pj : List (String × Json)) (exampleName : String)
    (config : ExampleConfig) (now : String) : List (String × Json) :=
  setPair
    (setPair
      (setPair
        (setPair pj "name" (.str (hyphenate exampleName)))
        "description" (.str config.description))
      "keywords" (.arr (config.keywords.map .str)))
    "fhevmExample" (fhevmExampleMeta config now)

/-- `String.intercalate "\n"`, i.e. `array.join("\n")`. -/
def joinLines (l : List String) : String := String.intercalate "\n" l

/-- The README template of `generateReadme` up to (and including) the literal
`"Generated: "`; the timestamp and a final newline follow. -/
def readmeBody (config : ExampleConfig) : String :=
  "# " ++ config.name ++
  "\n\n## Overview\n\n" ++ config.documentation.overview ++
  "\n\n## Complexity Level\n**" ++ upperStr config.complexity ++
  "**\n\n## Key Features\n\n" ++
  joinLines (config.documentation.keyFeatures.map (fun feature => "- " ++ feature)) ++
  "\n\n## Learning Outcomes\n\n" ++
  joinLines (config.documentation.learningOutcomes.map (fun outcome => "- " ++ outcome)) ++
  "\n\n## Quick Start\n\n### Installation\n```bash\nnpm install\n```\n\n" ++
  "### Compilation\n```bash\nnpm run compile\n```\n\n" ++
  "### Testing\n```bash\nnpm run test\n```\n\n" ++
  "### Deployment\n```bash\nnpm run deploy:sepolia\n```\n\n" ++
  "## Files\n\n- **Contract**: `contracts/" ++ config.contractFile ++
  "`\n- **Tests**: `test/" ++ config.testFile ++
  "`\n- **Deployment**: `scripts/deploy.ts`\n\n## Category\n**" ++
  capFirst config.category ++
  "**\n\n## Resources\n\n- [FHEVM Documentation](https://docs.zama.ai/fhevm)\n" ++
  "- [Hardhat Documentation](https://hardhat.org/)\n" ++
  "- [Zama Community](https://www.zama.ai/community)\n\n---\n\nGenerated: "

/-- `generateReadme`: the interpolated README text written to `README.md`. -/
def generateReadmeFn (config : ExampleConfig) (now : String) : String :=
  readmeBody config ++ now ++ "\n"

/-- `createMetadata`: the `.fhevm-example.json` document. -/
def createMetadataFn (exampleName : String) (config : ExampleConfig) (now : String) : Json :=
  .obj [ ("id", .str exampleName)
       , ("name", .str config.name)
       , ("description", .str config.description)
       , ("category", .str config.category)
       , ("complexity", .str config.complexity)
       , ("keywords", .arr (config.keywords.map .str))
       , ("contractFile", .str config.contractFile)
       , ("testFile", .str config.testFile)
       , ("generatedAt", .str now)
       , ("documentation",
           .obj [ ("overview", .str config.documentation.overview)
                , ("keyFeatures", .arr (config.documentation.keyFeatures.map .str))
                , ("learningOutcomes",
                    .arr (config.documentation.learningOutcomes.map .str)) ]) ]

/-- The outputs one `createExample` invocation writes into the destination,
plus the `console.warn` messages it prints (there are none in the source). -/
structure ExampleRun where
  templateCopied : List (List String × String)
  contractCopied : Option (List String × String)
  testCopied : Option (List String × String)
  packageJson : List (String × Json)
  readme : String
  metadata : Json
  warnings : List String

/-- `createExample(exampleName, outputPath)`.  An unknown example is fatal
(`process.exit(1)`) before any file I/O; afterwards the payload copies are
conditional on `fs.existsSync` and everything else is unconditional. -/
def createExampleRun (exmap : List (String × ExampleConfig))
    (tmplTree : List FsEntry) (tmplManifest : List (String × Json))
    (fs : RepoFs) (exampleName : String) (now : String) : Except String ExampleRun :=
  match List.lookup exampleName exmap with
  | none => .error ("❌ Example not found: " ++ exampleName)
  | some config =>
    .ok { templateCopied := copyFrom skipExample tmplTree
          contractCopied :=
            (List.lookup config.contractFile fs.contracts).map
              (fun content => (["contracts", config.contractFile], content))
          testCopied :=
            (List.lookup config.testFile fs.tests).map
              (fun content => (["test", config.testFile], content))
          packageJson := updatePackageJsonFn tmplManifest exampleName config now
          readme := generateReadmeFn config now
          metadata := createMetadataFn exampleName config now
          warnings := [] }

end SupplierHub

namespace SupplierHub

/-! ### Bundler: `create-fhevm-category.ts`

`createCategory` resolves the category (fatal if unknown), copies the base
template once with the larger exclusion set, then loops over the category's
example IDs: an ID missing from `EXAMPLES_MAP` gets a `console.warn` and is
skipped; for a resolved entry, the contract payload is copied into
`contracts/` and its file name pushed onto `contractFiles` only if the
source file exists on disk, and likewise the test payload into `test/`. -/

/-- Accumulated effect of the example loop of `createCategory`. -/
structure BundleAcc where
  contractFiles : List String
  testFiles : List String
  warnings : List String
  contractWrites : List (List String × String)
  testWrites : List (List String × String)

/-- The `for (const exampleName of config.examples)` loop. -/
def bundleExamples (exmap : List (String × ExampleConfig)) (fs : RepoFs) :
    List String → BundleAcc
  | [] => ⟨[], [], [], [], []⟩
  | n :: rest =>
    let acc := bundleExamples exmap fs rest
    match List.lookup n exmap with
    | none =>
      { acc with warnings := ("⚠️  Example not found: " ++ n) :: acc.warnings }
    | some e =>
      let cPart :=
        match List.lookup e.contractFile fs.contracts with
        | some content => ([e.contractFile], [(["contracts", e.contractFile], content)])
        | none => ([], [])
      let tPart :=
        match List.lookup e.testFile fs.tests with
        | some content => ([e.testFile], [(["test", e.testFile], content)])
        | none => ([], [])
      { contractFiles := cPart.1 ++ acc.contractFiles
        testFiles := tPart.1 ++ acc.testFiles
        warnings := acc.warnings
        contractWrites := cPart.2 ++ acc.contractWrites
        testWrites := tPart.2 ++ acc.testWrites }

/-- The outputs of one `createCategory` invocation. -/
structure CatRun where
  templateCopied : List (List String × String)
  contractFiles : List String
  testFiles : List String
  warnings : List String
  contractWrites : List (List String × String)
  testWrites : List (List String × String)

/-- `createCategory(categoryName, outputPath)`: unknown category is fatal
(`process.exit(1)`); otherwise the template copy happens once for the whole
bundle and the loop result is collected. -/
def createCategoryRun (cats : List (String × CategoryConfig))
    (exmap : List (String × ExampleConfig)) (tmplTree : List FsEntry)
    (fs : RepoFs) (categoryName : String) : Except String CatRun :=
  match List.lookup categoryName cats with
  | none => .error ("❌ Category not found: " ++ categoryName)
  | some config =>
    let acc := bundleExamples exmap fs config.examples
    .ok { templateCopied := copyFrom skipBundler tmplTree
          contractFiles := acc.contractFiles
          testFiles := acc.testFiles
          warnings := acc.warnings
          contractWrites := acc.contractWrites
          testWrites := acc.testWrites }

/-- Relative paths of every file `createCategory` writes into the
destination: the template copy, the payload copies, and the four generated
files (`package.json`, `README.md`, `.fhevm-category.json`, and
`scripts/deploy.ts`). -/
def bundleWrittenPaths (r : CatRun) : List (List String) :=
  r.templateCopied.map Prod.fst ++ r.contractWrites.map Prod.fst ++
    r.testWrites.map Prod.fst ++
    [["package.json"], ["README.md"], [".fhevm-category.json"], ["scripts", "deploy.ts"]]

/-- The loop's `contractFiles` accumulator is exactly the in-order selection
of the contract file names of the IDs that resolve in the registry and whose
contract source exists on disk. -/
theorem bundleExamples_contractFiles (exmap : List (String × ExampleConfig))
    (fs : RepoFs) (ids : List String) :
    (bundleExamples exmap fs ids).contractFiles =
      ids.filterMap (fun n =>
        (List.lookup n exmap).bind (fun e =>
          (List.lookup e.contractFile fs.contracts).map (fun _ => e.contractFile))) := by
  induction ids with
  | nil => rfl
  | cons n rest ih =>
    simp only [bundleExamples, List.filterMap_cons]
    rcases hl : List.lookup n exmap with _ | e
    · simpa [hl] using ih
    · rcases hc : List.lookup e.contractFile fs.contracts with _ | content <;>
        simp [hl, hc, ih]

/-- The loop's warnings are exactly one `Example not found` message per
unresolved ID, in order. -/
theorem bundleExamples_warnings (exmap : List (String × ExampleConfig))
    (fs : RepoFs) (ids : List String) :
    (bundleExamples exmap fs ids).warnings =
      ids.filterMap (fun n =>
        match List.lookup n exmap with
        | none => some ("⚠️  Example not found: " ++ n)
        | some _ => none) := by
  induction ids with
  | nil => rfl
  | cons n rest ih =>
    simp only [bundleExamples, List.filterMap_cons]
    rcases hl : List.lookup n exmap with _ | e
    · simp [hl, ih]
    · rcases hc : List.lookup e.contractFile fs.contracts with _ | content <;>
        rcases ht : List.lookup e.testFile fs.tests with _ | content2 <;>
        simp [hl, hc, ht, ih]

/-- The contract payload writes are the in-order copies
`contracts/<file> ↦ content` for the resolved IDs whose source exists. -/
theorem bundleExamples_contractWrites (exmap : List (String × ExampleConfig))
    (fs : RepoFs) (ids : List String) :
    (bundleExamples exmap fs ids).contractWrites =
      ids.filterMap (fun n =>
        (List.lookup n exmap).bind (fun e =>
          (List.lookup e.contractFile fs.contracts).map
            (fun content => (["contracts", e.contractFile], content)))) := by
  induction ids with
  | nil => rfl
  | cons n rest ih =>
    simp only [bundleExamples, List.filterMap_cons]
    rcases hl : List.lookup n exmap with _ | e
    · simpa [hl] using ih
    · rcases hc : List.lookup e.contractFile fs.contracts with _ | content <;>
        simp [hl, hc, ih]

/-- Same for the test payload writes, under `test/`. -/
theorem bundleExamples_testWrites (exmap : List (String × ExampleConfig))
    (fs : RepoFs) (ids : List String) :
    (bundleExamples exmap fs ids).testWrites =
      ids.filterMap (fun n =>
        (List.lookup n exmap).bind (fun e =>
          (List.lookup e.testFile fs.tests).map
            (fun content => (["test", e.testFile], content)))) := by
  induction ids with
  | nil => rfl
  | cons n rest ih =>
    simp only [bundleExamples, List.filterMap_cons]
    rcases hl : List.lookup n exmap with _ | e
    · simpa [hl] using ih
    · rcases ht : List.lookup e.testFile fs.tests with _ | content <;>
        simp [hl, ht, ih]

end SupplierHub

namespace SupplierHub

/-! ### Documentation generator: `generate-docs.ts`

`generateDocumentation` resolves the example in `EXAMPLES_MAP` (fatal if
unknown), looks the example up in `DOCS_CONFIG` (missing config only warns),
extracts test titles from the configured test file if it exists, and renders
one fixed Markdown template.  The `outputDir` argument of the TS function is
never used: the output path is `docsConfig?.outputPath` or
`./docs/<exampleName>.md`.  `extractContractInfo` is invoked in the source
but none of its output appears in the rendered Markdown, so it is not
modelled.  The rendered Markdown embeds `new Date().toISOString()` in its
`**Last Updated**` footer. -/

/-- The Markdown template of `generateDocumentation` up to (and including)
the literal `"**Last Updated**: "`; the timestamp and `mdTailFn` follow. -/
def mdMain (config : ExampleConfig) (docsCfg : Option DocsConfig)
    (testCases : List String) : String :=
  "# " ++ config.name ++
  "\n\n**Category**: " ++ config.category ++
  "\n**Complexity**: " ++ ((docsCfg.map (fun d => d.complexity)).getD "intermediate") ++
  "\n**Estimated Time**: " ++ ((docsCfg.map (fun d => d.estimatedTime)).getD "20-30 minutes") ++
  "\n\n## Overview\n\n" ++ config.documentation.overview ++
  "\n\n## Key Features\n\n" ++
  joinLines (config.documentation.keyFeatures.map (fun f => "- " ++ f)) ++
  "\n\n## Learning Outcomes\n\n" ++
  joinLines (config.documentation.learningOutcomes.map (fun o => "- " ++ o)) ++
  "\n\n## Architecture\n\n### Contract Structure\n\n" ++
  "The contract is organized into the following main sections:\n\n" ++
  "1. **State Variables** - Storage for encrypted and public data\n" ++
  "2. **Constructor/Initialization** - Setup logic\n" ++
  "3. **Core Functions** - Main contract functionality\n" ++
  "4. **Utility Functions** - Helper methods\n" ++
  "5. **Events** - Important events for monitoring\n\n" ++
  "### Key FHE Operations\n\nThis example demonstrates:\n" ++
  "- Encrypted data types (`euint8`, `euint32`, etc.)\n" ++
  "- Permission management (`FHE.allowThis()`, `FHE.allow()`)\n" ++
  "- Privacy-preserving operations\n- Async decryption callbacks\n\n" ++
  "## Code Examples\n\n### Contract File\n```solidity\n// Source: " ++
  ((docsCfg.map (fun d => d.contractPath)).getD "contracts/[Example].sol") ++
  "\n// See the contract file for complete implementation\n```\n\n" ++
  "### Test Cases\n\n**Total Tests**: " ++ toString testCases.length ++
  "\n\n" ++
  (if testCases.length > 0 then
    "\nTest coverage includes:\n" ++
      joinLines (testCases.map (fun t => "- " ++ t)) ++ "\n"
   else "See test file for detailed test cases") ++
  "\n\n## How It Works\n\n### Step 1: Setup\n" ++
  "Initialize the contract and prepare any encrypted data structures.\n\n" ++
  "### Step 2: Encrypt Data\nUse FHE to encrypt sensitive information:\n" ++
  "```solidity\neuint8 encryptedValue = FHE.asEuint8(plainValue);\n" ++
  "FHE.allowThis(encryptedValue);\nFHE.allow(encryptedValue, msg.sender);\n```\n\n" ++
  "### Step 3: Perform Operations\nExecute functions that operate on encrypted data:\n" ++
  "```solidity\n// Examples: add, subtract, compare, etc.\n```\n\n" ++
  "### Step 4: Decrypt (if needed)\nRequest decryption through async callback:\n" ++
  "```solidity\nFHE.requestDecryption(cts, this.callback.selector);\n```\n\n" ++
  "## Running the Example\n\n### Prerequisites\n- Node.js >= 14.0.0\n- npm or yarn\n\n" ++
  "### Installation\n```bash\nnpm install\n```\n\n" ++
  "### Compilation\n```bash\nnpm run compile\n```\n\n" ++
  "### Testing\n```bash\nnpm run test\n```\n\n" ++
  "### Deployment\n```bash\n# Deploy to Sepolia testnet\nnpm run deploy:sepolia\n\n" ++
  "# Deploy to Zama testnet\nnpm run deploy:zama\n```\n\n" ++
  "## FHE Patterns Used\n\n### Pattern 1: Permission Management\n" ++
  "```solidity\neuint8 encryptedValue = FHE.asEuint8(plainValue);\n" ++
  "FHE.allowThis(encryptedValue);              // ✅ Contract permission\n" ++
  "FHE.allow(encryptedValue, msg.sender);      // ✅ User permission\n```\n\n" ++
  "### Pattern 2: Access Control\n```solidity\n" ++
  "require(msg.sender == owner, \"Only owner can decrypt\");\n```\n\n" ++
  "### Pattern 3: Encrypted Operations\n```solidity\n" ++
  "euint8 result = FHE.add(encryptedA, encryptedB);\n```\n\n" ++
  "### Pattern 4: Async Decryption\n```solidity\n" ++
  "FHE.requestDecryption(cts, this.processDecryption.selector);\n```\n\n" ++
  "## Common Pitfalls\n\n### ❌ Forgetting FHE.allowThis()\n```solidity\n" ++
  "// WRONG - missing allowThis\nFHE.allow(encryptedValue, msg.sender);\n```\n\n" ++
  "### ✅ Correct Permission Handling\n```solidity\n// RIGHT - both permissions\n" ++
  "FHE.allowThis(encryptedValue);\nFHE.allow(encryptedValue, msg.sender);\n```\n\n" ++
  "### ❌ View Functions with Encrypted Returns\n```solidity\n" ++
  "// WRONG - can't return encrypted from view\n" ++
  "function getValue() external view returns (euint8) \x7b\n" ++
  "    return encryptedValue;\n\x7d\n```\n\n" ++
  "## Advanced Topics\n\n### State Management\n" ++
  "How encrypted values are stored and updated in contract state.\n\n" ++
  "### Multi-Step Operations\nPerforming complex logic with encrypted values.\n\n" ++
  "### Decryption Callbacks\nUnderstanding async decryption and callback pattern.\n\n" ++
  "## Resources\n\n- [FHEVM Documentation](https://docs.zama.ai/fhevm)\n" ++
  "- [Hardhat Guide](https://hardhat.org/)\n" ++
  "- [Solidity Handbook](https://docs.soliditylang.org/)\n" ++
  "- [Zama Community](https://www.zama.ai/community)\n\n" ++
  "## Next Steps\n\n1. ✅ Complete this example\n" ++
  "2. Review related examples in the same category\n" ++
  "3. Modify the contract to test different scenarios\n" ++
  "4. Deploy to testnet\n5. Explore more advanced patterns\n\n" ++
  "## Questions?\n\n- Visit [Zama Community Forum](https://www.zama.ai/community)\n" ++
  "- Check [FHEVM Documentation](https://docs.zama.ai/fhevm)\n" ++
  "- Ask on [Zama Discord](https://discord.com/invite/zama)\n\n---\n\n" ++
  "**Last Updated**: "

/-- The tail of the Markdown template after the timestamp. -/
def mdTailFn (exampleName : String) : String :=
  "\n**Example**: " ++ exampleName ++ "\n**Version**: 1.0.0\n"

/-- The full rendered Markdown of `generateDocumentation`. -/
def docMarkdown (exampleName : String) (config : ExampleConfig)
    (docsCfg : Option DocsConfig) (testCases : List String) (now : String) : String :=
  mdMain config docsCfg testCases ++ now ++ mdTailFn exampleName

/-- The observable result of one `generateDocumentation` invocation. -/
structure DocsRun where
  outputPath : String
  markdown : String
  warnings : List String

/-- `generateDocumentation(exampleName, outputDir)`.  `fsFiles` maps a path
to the content of the file at that path, if any; `outputDir` is accepted and
ignored exactly as in the source. -/
def generateDocumentationFn (exmap : List (String × ExampleConfig))
    (dmap : List (String × DocsConfig)) (fsFiles : List (String × String))
    (exampleName outputDir now : String) : Except String DocsRun :=
  match List.lookup exampleName exmap with
  | none => .error ("❌ Example not found: " ++ exampleName)
  | some config =>
    let docsCfg := List.lookup exampleName dmap
    let warnings :=
      match docsCfg with
      | none => ["⚠️  Documentation config not found for: " ++ exampleName,
                 "Using default configuration..."]
      | some _ => []
    let testContent := List.lookup ((docsCfg.map (fun d => d.testPath)).getD "") fsFiles
    let testInfo := extractTestInfoFn testContent
    let outputPath := (docsCfg.map (fun d => d.outputPath)).getD ("./docs/" ++ exampleName ++ ".md")
    .ok { outputPath := outputPath
          markdown := docMarkdown exampleName config docsCfg testInfo.1 now
          warnings := warnings }

/-- `generateSummary`: the `SUMMARY.md` text, with its two fixed category
sections filtering `Object.entries(EXAMPLES_MAP)` by `config.category`. -/
def generateSummaryFn (exmap : List (String × ExampleConfig)) : String :=
  "# Summary\n\n## Getting Started\n* [Introduction](README.md)\n\n## Enterprise Applications\n" ++
  joinLines ((exmap.filter (fun p => p.2.category == "enterprise")).map
    (fun p => "* [" ++ p.2.name ++ "](enterprise/" ++ p.1 ++ ".md)")) ++
  "\n\n## Basic Examples\n" ++
  joinLines ((exmap.filter (fun p => p.2.category == "basic")).map
    (fun p => "* [" ++ p.2.name ++ "](basic/" ++ p.1 ++ ".md)")) ++
  "\n\n## Resources\n* [FHEVM Documentation](https://docs.zama.ai/fhevm)\n" ++
  "* [Hardhat Guide](https://hardhat.org/)\n* [Zama Community](https://www.zama.ai/community)\n"

end SupplierHub

namespace SupplierHub

/-! ### Generic helper lemmas. -/

/-- Left cancellation for string append. -/
theorem strAppendCancelLeft {a b c : String} (h : a ++ b = a ++ c) : b = c := by
  apply String.ext
  have h2 := congrArg String.data h
  simp only [String.data_append] at h2
  exact List.append_cancel_left h2

/-- Right cancellation for string append. -/
theorem strAppendCancelRight {a b c : String} (h : a ++ c = b ++ c) : a = b := by
  apply String.ext
  have h2 := congrArg String.data h
  simp only [String.data_append] at h2
  exact List.append_cancel_right h2

/-- Two interpolations of the same template around different middles differ. -/
theorem strMidNe {p s x y : String} (h : x ≠ y) : p ++ x ++ s ≠ p ++ y ++ s := by
  intro he
  exact h (strAppendCancelLeft (strAppendCancelRight he))

/-- Looking up the key just assigned yields the assigned value. -/
theorem lookup_setPair_self (m : List (String × Json)) (k : String) (v : Json) :
    List.lookup k (setPair m k v) = some v := by
  induction m with
  | nil => simp [setPair, List.lookup]
  | cons kv rest ih =>
    obtain ⟨k', v'⟩ := kv
    by_cases hk : k' = k
    · simp [setPair, hk, List.lookup]
    · simp only [setPair, if_neg hk, List.lookup]
      have : (k == k') = false := by
        simp [beq_iff_eq]
        exact fun he => hk he.symm
      simp [this, ih]

/-- Assignment to one key leaves every other key's lookup unchanged. -/
theorem lookup_setPair_ne (m : List (String × Json)) {k k' : String} (v : Json)
    (h : k ≠ k') : List.lookup k (setPair m k' v) = List.lookup k m := by
  induction m with
  | nil =>
    have hb : (k == k') = false := by
      simp [beq_iff_eq]
      exact h
    simp [setPair, List.lookup, hb]
  | cons kv rest ih =>
    obtain ⟨k₀, v₀⟩ := kv
    by_cases hk : k₀ = k'
    · subst hk
      have : (k == k₀) = false := by
        simp [beq_iff_eq]
        exact h
      simp [setPair, List.lookup, this]
    · simp only [setPair, if_neg hk, List.lookup]
      by_cases hkk : k = k₀
      · simp [hkk]
      · have : (k == k₀) = false := by
          simp [beq_iff_eq]
          exact hkk
        simp [this, ih]

/-- `leadsWith n h`: `h` starts with `n`. -/
def leadsWith : List Char → List Char → Bool
  | [], _ => true
  | _ :: _, [] => false
  | a :: as, b :: bs => a == b && leadsWith as bs

/-- `occursIn n h`: `n` occurs as a contiguous substring of `h`. -/
def occursIn (n : List Char) : List Char → Bool
  | [] => leadsWith n []
  | c :: rest => leadsWith n (c :: rest) || occursIn n rest

end SupplierHub

namespace SupplierHub

/-! ### Fixtures and result projections used in concrete statements. -/

/-- A hypothetical registry entry whose category matches no `CATEGORIES`
entry and no fixed section of `generateSummary`. -/
def ghostCfg : ExampleConfig :=
  { name := "Private Ballot"
    description := "Hypothetical governance example"
    category := "governance"
    contractFile := "PrivateBallot.sol"
    testFile := "PrivateBallot.ts"
    complexity := "intermediate"
    keywords := ["voting"]
    documentation :=
      { overview := "Hypothetical overview"
        keyFeatures := ["Feature"]
        learningOutcomes := ["Outcome"] } }

/-- The `alpha` entry of the spec's concrete bundler scenario
(`sourceFile "Alpha.src"`, `testFile "Alpha.spec"`). -/
def alphaCfg : ExampleConfig :=
  { name := "Alpha"
    description := "Alpha example"
    category := "basic"
    contractFile := "Alpha.src"
    testFile := "Alpha.spec"
    complexity := "beginner"
    keywords := ["x"]
    documentation :=
      { overview := "Alpha overview"
        keyFeatures := ["Alpha feature"]
        learningOutcomes := ["Alpha outcome"] } }

/-- Registry of the spec's concrete bundler scenario: only `alpha`. -/
def demoExMap : List (String × ExampleConfig) := [("alpha", alphaCfg)]

/-- The `basic` category of the scenario: it lists `alpha` and the
unregistered `ghost`. -/
def demoBasicCat : CategoryConfig :=
  { name := "Basic"
    description := "Basic demo category"
    examples := ["alpha", "ghost"]
    keyTopics := ["Demo"] }

/-- Category table of the scenario. -/
def demoCats : List (String × CategoryConfig) := [("basic", demoBasicCat)]

/-- Payload directories holding both of `alpha`'s files. -/
def demoFs : RepoFs :=
  { contracts := [("Alpha.src", "alpha source")]
    tests := [("Alpha.spec", "alpha tests")] }

/-- `readme` field of a successful materializer run. -/
def runReadme : Except String ExampleRun → Option String
  | .ok r => some r.readme
  | .error _ => none

/-- `warnings` field of a successful materializer run. -/
def runWarningsEx : Except String ExampleRun → Option (List String)
  | .ok r => some r.warnings
  | .error _ => none

/-- `contractCopied` field of a successful materializer run. -/
def runContractCopied : Except String ExampleRun → Option (Option (List String × String))
  | .ok r => some r.contractCopied
  | .error _ => none

/-- `outputPath` field of a successful doc-generator run. -/
def runPath : Except String DocsRun → Option String
  | .ok r => some r.outputPath
  | .error _ => none

/-- `contractFiles` field of a successful bundler run. -/
def runCatContractFiles : Except String CatRun → Option (List String)
  | .ok r => some r.contractFiles
  | .error _ => none

end SupplierHub

namespace SupplierHub

/-! ### Claim theorems. -/

/-- C8 (amended): `extractTestCaseTitles` is total and scans textually for
the character sequence `it(` followed by a quote; it returns each maximal
non-empty run of non-quote characters so delimited, terminated by the first
subsequent quote character of any kind, in order of appearance with
duplicates preserved, and the empty list when nothing matches.  Three test
declarations titled t1, t2, t3 inside unrelated code yield exactly
`["t1", "t2", "t3"]`. -/
theorem c8_extract_titles_amended :
    extractTestCaseTitles "" = []
    ∧ extractTestCaseTitles "const x = 5; describe(\"setup\", register);" = []
    ∧ extractTestCaseTitles
        "describe(\"Suite\", () => \x7b it(\x27t1\x27, a); it(\"t2\", b); it(`t3`, c); \x7d);"
        = ["t1", "t2", "t3"]
    ∧ extractTestCaseTitles "it(\x27dup\x27, a); it(\x27dup\x27, b);" = ["dup", "dup"]
    ∧ extractTestCaseTitles "it(\x27a\"b\x27, f);" = ["a"] := by
  refine ⟨by decide, by decide, by decide, by decide, by decide⟩

/-- C8 counterexample: a test declaration whose title literal is empty is
not matched at all (the scan requires at least one character between the
quotes), and any textual occurrence of `it(` — here inside the identifier
`exit` — is matched even though it is no test declaration; so the output is
not the list of first-argument literals of exactly the test-declaration
calls. -/
theorem c8_extract_titles_empty_literal :
    extractTestCaseTitles "it(\x27\x27, callback);" = []
    ∧ extractTestCaseTitles "it(\x27\x27, callback);" ≠ [""]
    ∧ extractTestCaseTitles "exit(\x27boom\x27);" = ["boom"] := by
  refine ⟨by decide, by decide, by decide⟩

/-- C3: after a successful materialization, the patched manifest's `name` is
the example ID with every underscore replaced by a hyphen, its
`description` is the entry's description, and its `keywords` list is the
entry's keyword list, exactly. -/
theorem c3_manifest_fields
    (exmap : List (String × ExampleConfig)) (tmplTree : List FsEntry)
    (tmplManifest : List (String × Json)) (fs : RepoFs)
    (exampleName now : String) (config : ExampleConfig) (r : ExampleRun)
    (hlook : List.lookup exampleName exmap = some config)
    (hrun : createExampleRun exmap tmplTree tmplManifest fs exampleName now = .ok r) :
    List.lookup "name" r.packageJson = some (Json.str (hyphenate exampleName))
    ∧ List.lookup "description" r.packageJson = some (Json.str config.description)
    ∧ List.lookup "keywords" r.packageJson = some (Json.arr (config.keywords.map Json.str)) := by
  have hpj : r.packageJson = updatePackageJsonFn tmplManifest exampleName config now := by
    simp only [createExampleRun, hlook, Except.ok.injEq] at hrun
    rw [← hrun]
  rw [hpj]
  unfold updatePackageJsonFn
  refine ⟨?_, ?_, ?_⟩
  · rw [lookup_setPair_ne _ _ (by decide), lookup_setPair_ne _ _ (by decide),
      lookup_setPair_ne _ _ (by decide), lookup_setPair_self]
  · rw [lookup_setPair_ne _ _ (by decide), lookup_setPair_ne _ _ (by decide),
      lookup_setPair_self]
  · rw [lookup_setPair_ne _ _ (by decide), lookup_setPair_self]

/-- C3 witness: materializing the id `my_example` (registered with the
FHE-counter entry) over a one-field template manifest yields a manifest
whose name is `my-example` and whose description/keywords are the
entry's. -/
theorem c3_manifest_fields_witness :
    List.lookup "name"
        (updatePackageJsonFn [("version", Json.str "1.0.0")] "my_example" fheCounterCfg "T")
      = some (Json.str (hyphenate "my_example"))
    ∧ List.lookup "description"
        (updatePackageJsonFn [("version", Json.str "1.0.0")] "my_example" fheCounterCfg "T")
      = some (Json.str fheCounterCfg.description)
    ∧ List.lookup "keywords"
        (updatePackageJsonFn [("version", Json.str "1.0.0")] "my_example" fheCounterCfg "T")
      = some (Json.arr (fheCounterCfg.keywords.map Json.str)) :=
  c3_manifest_fields [("my_example", fheCounterCfg)] [] [("version", Json.str "1.0.0")]
    ⟨[], []⟩ "my_example" "T" fheCounterCfg
    { templateCopied := copyFrom skipExample []
      contractCopied := none
      testCopied := none
      packageJson := updatePackageJsonFn [("version", Json.str "1.0.0")] "my_example" fheCounterCfg "T"
      readme := generateReadmeFn fheCounterCfg "T"
      metadata := createMetadataFn "my_example" fheCounterCfg "T"
      warnings := [] }
    rfl rfl

/-- C9: the manifest patch of the materializer changes only `name`,
`description`, `keywords` and the appended `fhevmExample` object; the
lookup of every other top-level key is unchanged. -/
theorem c9_manifest_frame (pj : List (String × Json)) (exampleName : String)
    (config : ExampleConfig) (now : String) (k : String)
    (h1 : k ≠ "name") (h2 : k ≠ "description") (h3 : k ≠ "keywords")
    (h4 : k ≠ "fhevmExample") :
    List.lookup k (updatePackageJsonFn pj exampleName config now) = List.lookup k pj := by
  unfold updatePackageJsonFn
  rw [lookup_setPair_ne _ _ h4, lookup_setPair_ne _ _ h3,
    lookup_setPair_ne _ _ h2, lookup_setPair_ne _ _ h1]

/-- C9 witness: the `version` and `scripts` fields of a template manifest
survive the patch untouched. -/
theorem c9_manifest_frame_witness :
    List.lookup "version"
        (updatePackageJsonFn [("version", Json.str "1.0.0"), ("scripts", Json.obj [])]
          "fhe-counter" fheCounterCfg "T")
      = List.lookup "version" [("version", Json.str "1.0.0"), ("scripts", Json.obj [])] :=
  c9_manifest_frame [("version", Json.str "1.0.0"), ("scripts", Json.obj [])]
    "fhe-counter" fheCounterCfg "T" "version"
    (by decide) (by decide) (by decide) (by decide)

end SupplierHub

namespace SupplierHub

/-- C1 (amended): the rendered Markdown of `generateDocumentation` is a
deterministic function of the registry entry, the docs config, the payload
file contents, and the invocation timestamp — but the template embeds the
timestamp in its `**Last Updated**` footer, so two runs over an unchanged
registry and unchanged files produce byte-identical Markdown only when
their clock readings coincide; at distinct timestamps the outputs always
differ. -/
theorem c1_docs_timestamp_dependent
    (exmap : List (String × ExampleConfig)) (dmap : List (String × DocsConfig))
    (fsFiles : List (String × String)) (exampleName outputDir : String)
    (config : ExampleConfig) (t1 t2 : String)
    (hlook : List.lookup exampleName exmap = some config)
    (hne : t1 ≠ t2) :
    generateDocumentationFn exmap dmap fsFiles exampleName outputDir t1
      ≠ generateDocumentationFn exmap dmap fsFiles exampleName outputDir t2 := by
  intro h
  simp only [generateDocumentationFn, hlook, Except.ok.injEq] at h
  have hmd := congrArg DocsRun.markdown h
  simp only [docMarkdown] at hmd
  exact strMidNe hne hmd

/-- C1 witness: two doc-generation runs for `fhe-counter` at distinct
timestamps, with identical registry, configs and (empty) file system,
produce different results. -/
theorem c1_docs_timestamp_dependent_witness :
    generateDocumentationFn EXAMPLES_MAP DOCS_CONFIG [] "fhe-counter" "./docs"
        "2025-01-01T00:00:00.000Z"
      ≠ generateDocumentationFn EXAMPLES_MAP DOCS_CONFIG [] "fhe-counter" "./docs"
        "2025-01-02T00:00:00.000Z" :=
  c1_docs_timestamp_dependent EXAMPLES_MAP DOCS_CONFIG [] "fhe-counter" "./docs"
    fheCounterCfg "2025-01-01T00:00:00.000Z" "2025-01-02T00:00:00.000Z" rfl (by decide)

/-- C1 counterexample: for the registered id
`confidential-supplier-management`, with the registry and both payload
files unchanged between the two invocations, running the generator one
second apart yields different Markdown bytes — the `**Last Updated**`
footer embeds `new Date().toISOString()`. -/
theorem c1_docs_not_byte_identical :
    generateDocumentationFn EXAMPLES_MAP DOCS_CONFIG [] "confidential-supplier-management"
        "./docs" "2025-03-01T10:00:00.000Z"
      ≠ generateDocumentationFn EXAMPLES_MAP DOCS_CONFIG [] "confidential-supplier-management"
        "./docs" "2025-03-01T10:00:01.000Z" := by
  intro h
  have h2 := congrArg
    (fun x => match x with | Except.ok r => r.markdown | Except.error e => e) h
  have h3 : mdMain supplierCfg (some supplierDocsCfg) [] ++ "2025-03-01T10:00:00.000Z" ++
        mdTailFn "confidential-supplier-management"
      = mdMain supplierCfg (some supplierDocsCfg) [] ++ "2025-03-01T10:00:01.000Z" ++
        mdTailFn "confidential-supplier-management" := h2
  exact strMidNe (by decide) h3

/-- C2 (amended): two materializations of the same example over an
unmodified file system agree byte-for-byte on every copied file (template
and payload copies), but the three generated artifacts — `README.md`,
`package.json`, and the `.fhevm-example.json` metadata file — each embed
the invocation timestamp, so at distinct timestamps each of the three
differs between the runs. -/
theorem c2_materialize_amended
    (exmap : List (String × ExampleConfig)) (tmplTree : List FsEntry)
    (tmplManifest : List (String × Json)) (fs : RepoFs)
    (exampleName t1 t2 : String) (config : ExampleConfig) (r1 r2 : ExampleRun)
    (hlook : List.lookup exampleName exmap = some config)
    (h1 : createExampleRun exmap tmplTree tmplManifest fs exampleName t1 = .ok r1)
    (h2 : createExampleRun exmap tmplTree tmplManifest fs exampleName t2 = .ok r2)
    (hne : t1 ≠ t2) :
    (r1.templateCopied = r2.templateCopied
      ∧ r1.contractCopied = r2.contractCopied
      ∧ r1.testCopied = r2.testCopied)
    ∧ (r1.readme ≠ r2.readme
      ∧ r1.packageJson ≠ r2.packageJson
      ∧ r1.metadata ≠ r2.metadata) := by
  simp only [createExampleRun, hlook, Except.ok.injEq] at h1 h2
  subst h1
  subst h2
  refine ⟨⟨rfl, rfl, rfl⟩, ?_, ?_, ?_⟩
  · simp only [generateReadmeFn]
    exact strMidNe hne
  · intro he
    have e1 : List.lookup "fhevmExample"
        (updatePackageJsonFn tmplManifest exampleName config t1)
        = some (fhevmExampleMeta config t1) := by
      unfold updatePackageJsonFn
      rw [lookup_setPair_self]
    have e2 : List.lookup "fhevmExample"
        (updatePackageJsonFn tmplManifest exampleName config t2)
        = some (fhevmExampleMeta config t2) := by
      unfold updatePackageJsonFn
      rw [lookup_setPair_self]
    have hl := congrArg (fun m => List.lookup "fhevmExample" m) he
    simp only at hl
    rw [e1, e2] at hl
    simp [fhevmExampleMeta] at hl
    exact hne hl
  · intro he
    simp [createMetadataFn] at he
    exact hne he

/-- C2 witness: two materializer runs of `fhe-counter` at distinct
timestamps over an empty template and file system agree on the copied
files and differ in README, manifest and metadata. -/
theorem c2_materialize_amended_witness :
    ((copyFrom skipExample [] = copyFrom skipExample [])
      ∧ ((none : Option (List String × String)) = none)
      ∧ ((none : Option (List String × String)) = none))
    ∧ (generateReadmeFn fheCounterCfg "2025-01-01T00:00:00.000Z"
        ≠ generateReadmeFn fheCounterCfg "2025-01-02T00:00:00.000Z"
      ∧ updatePackageJsonFn [] "fhe-counter" fheCounterCfg "2025-01-01T00:00:00.000Z"
        ≠ updatePackageJsonFn [] "fhe-counter" fheCounterCfg "2025-01-02T00:00:00.000Z"
      ∧ createMetadataFn "fhe-counter" fheCounterCfg "2025-01-01T00:00:00.000Z"
        ≠ createMetadataFn "fhe-counter" fheCounterCfg "2025-01-02T00:00:00.000Z") :=
  c2_materialize_amended EXAMPLES_MAP [] [] ⟨[], []⟩ "fhe-counter"
    "2025-01-01T00:00:00.000Z" "2025-01-02T00:00:00.000Z" fheCounterCfg
    { templateCopied := copyFrom skipExample []
      contractCopied := none
      testCopied := none
      packageJson := updatePackageJsonFn [] "fhe-counter" fheCounterCfg "2025-01-01T00:00:00.000Z"
      readme := generateReadmeFn fheCounterCfg "2025-01-01T00:00:00.000Z"
      metadata := createMetadataFn "fhe-counter" fheCounterCfg "2025-01-01T00:00:00.000Z"
      warnings := [] }
    { templateCopied := copyFrom skipExample []
      contractCopied := none
      testCopied := none
      packageJson := updatePackageJsonFn [] "fhe-counter" fheCounterCfg "2025-01-02T00:00:00.000Z"
      readme := generateReadmeFn fheCounterCfg "2025-01-02T00:00:00.000Z"
      metadata := createMetadataFn "fhe-counter" fheCounterCfg "2025-01-02T00:00:00.000Z"
      warnings := [] }
    rfl rfl rfl (by decide)

/-- C2 counterexample: the two runs of the previous scenario do not produce
identical outputs — already their README bytes differ, because the README
template ends with `Generated: <timestamp>`. -/
theorem c2_materialize_not_byte_identical :
    createExampleRun EXAMPLES_MAP [] [] ⟨[], []⟩ "fhe-counter" "2025-06-01T08:30:00.000Z"
      ≠ createExampleRun EXAMPLES_MAP [] [] ⟨[], []⟩ "fhe-counter" "2025-06-01T08:30:01.000Z" := by
  intro h
  have h2 := congrArg runReadme h
  have h3 : readmeBody fheCounterCfg ++ "2025-06-01T08:30:00.000Z" ++ "\n"
      = readmeBody fheCounterCfg ++ "2025-06-01T08:30:01.000Z" ++ "\n" :=
    Option.some.inj h2
  exact strMidNe (by decide) h3

end SupplierHub

namespace SupplierHub

/-- C5 (amended): `generateDocumentation` ignores its `outputRoot`
argument entirely — the whole result is invariant in it — and writes the
per-example Markdown at `DOCS_CONFIG[id].outputPath` when a docs config
exists for the id (a hard-coded `./docs/<category>/<id>.md` path whose
category segment comes from `DOCS_CONFIG`, not from the registry entry),
and at `./docs/<id>.md`, with no category segment, otherwise. -/
theorem c5_output_path_amended
    (exmap : List (String × ExampleConfig)) (dmap : List (String × DocsConfig))
    (fsFiles : List (String × String)) (exampleName d1 d2 now : String)
    (config : ExampleConfig) (r : DocsRun)
    (hlook : List.lookup exampleName exmap = some config)
    (hrun : generateDocumentationFn exmap dmap fsFiles exampleName d1 now = .ok r) :
    generateDocumentationFn exmap dmap fsFiles exampleName d1 now
      = generateDocumentationFn exmap dmap fsFiles exampleName d2 now
    ∧ r.outputPath = (match List.lookup exampleName dmap with
        | some d => d.outputPath
        | none => "./docs/" ++ exampleName ++ ".md") := by
  constructor
  · rfl
  · simp only [generateDocumentationFn, hlook, Except.ok.injEq] at hrun
    have hop := congrArg DocsRun.outputPath hrun
    rw [← hop]
    rcases hd : List.lookup exampleName dmap with _ | d <;> simp [hd]

/-- C5 witness: for `fhe-counter` the result is the same whether the caller
passes `build-output` or `./docs` as output root, and the file lands at the
hard-coded `./docs/basic/fhe-counter.md`. -/
theorem c5_output_path_amended_witness :
    generateDocumentationFn EXAMPLES_MAP DOCS_CONFIG [] "fhe-counter" "build-output" "T"
      = generateDocumentationFn EXAMPLES_MAP DOCS_CONFIG [] "fhe-counter" "./docs" "T"
    ∧ ("./docs/basic/fhe-counter.md" : String) = (match List.lookup "fhe-counter" DOCS_CONFIG with
        | some d => d.outputPath
        | none => "./docs/" ++ "fhe-counter" ++ ".md") :=
  c5_output_path_amended EXAMPLES_MAP DOCS_CONFIG [] "fhe-counter" "build-output" "./docs"
    "T" fheCounterCfg
    { outputPath := "./docs/basic/fhe-counter.md"
      markdown := docMarkdown "fhe-counter" fheCounterCfg (some fheCounterDocsCfg) [] "T"
      warnings := [] }
    rfl rfl

/-- C5 counterexample: with output root `build-output`, the per-example
file for `fhe-counter` is not written at
`build-output/basic/fhe-counter.md` as the claim requires, but at the
hard-coded `./docs/basic/fhe-counter.md`. -/
theorem c5_output_path_ignores_root :
    runPath (generateDocumentationFn EXAMPLES_MAP DOCS_CONFIG [] "fhe-counter"
        "build-output" "T")
      = some "./docs/basic/fhe-counter.md"
    ∧ ("./docs/basic/fhe-counter.md" : String) ≠ "build-output/basic/fhe-counter.md" := by
  exact ⟨rfl, by decide⟩

/-- C7 (amended): when a registered example's declared source file is
absent from disk, the materializer skips the copy silently — it emits no
warning at all (`createExample` has no `console.warn` call) — and still
produces the full generated project: README, patched manifest and metadata
file are all written. -/
theorem c7_missing_payload_amended
    (exmap : List (String × ExampleConfig)) (tmplTree : List FsEntry)
    (tmplManifest : List (String × Json)) (fs : RepoFs)
    (exampleName now : String) (config : ExampleConfig) (r : ExampleRun)
    (hlook : List.lookup exampleName exmap = some config)
    (hmiss : List.lookup config.contractFile fs.contracts = none)
    (hrun : createExampleRun exmap tmplTree tmplManifest fs exampleName now = .ok r) :
    r.contractCopied = none
    ∧ r.warnings = []
    ∧ r.readme = generateReadmeFn config now
    ∧ r.packageJson = updatePackageJsonFn tmplManifest exampleName config now
    ∧ r.metadata = createMetadataFn exampleName config now := by
  simp only [createExampleRun, hlook, Except.ok.injEq] at hrun
  subst hrun
  refine ⟨?_, rfl, rfl, rfl, rfl⟩
  simp [hmiss]

/-- C7 witness: materializing `fhe-counter` with `FHECounter.sol` absent
but `FHECounter.ts` present copies no contract, warns nothing, and still
produces README, manifest and metadata. -/
theorem c7_missing_payload_amended_witness :
    (none : Option (List String × String)) = none
    ∧ ([] : List String) = []
    ∧ generateReadmeFn fheCounterCfg "T" = generateReadmeFn fheCounterCfg "T"
    ∧ updatePackageJsonFn [("version", Json.str "1.0.0")] "fhe-counter" fheCounterCfg "T"
        = updatePackageJsonFn [("version", Json.str "1.0.0")] "fhe-counter" fheCounterCfg "T"
    ∧ createMetadataFn "fhe-counter" fheCounterCfg "T"
        = createMetadataFn "fhe-counter" fheCounterCfg "T" :=
  c7_missing_payload_amended EXAMPLES_MAP [] [("version", Json.str "1.0.0")]
    ⟨[], [("FHECounter.ts", "counter tests")]⟩ "fhe-counter" "T" fheCounterCfg
    { templateCopied := copyFrom skipExample []
      contractCopied := none
      testCopied := some (["test", "FHECounter.ts"], "counter tests")
      packageJson := updatePackageJsonFn [("version", Json.str "1.0.0")] "fhe-counter" fheCounterCfg "T"
      readme := generateReadmeFn fheCounterCfg "T"
      metadata := createMetadataFn "fhe-counter" fheCounterCfg "T"
      warnings := [] }
    rfl rfl rfl

/-- C7 counterexample: materializing `fhe-counter` over a file system
missing both payload files emits an empty warning list — not the non-fatal
warning the claim requires — while the project (here its README) is still
produced. -/
theorem c7_missing_payload_no_warning :
    runWarningsEx (createExampleRun EXAMPLES_MAP [] [] ⟨[], []⟩ "fhe-counter" "T") = some []
    ∧ runContractCopied (createExampleRun EXAMPLES_MAP [] [] ⟨[], []⟩ "fhe-counter" "T")
        = some none
    ∧ runReadme (createExampleRun EXAMPLES_MAP [] [] ⟨[], []⟩ "fhe-counter" "T")
        = some (generateReadmeFn fheCounterCfg "T") := by
  exact ⟨rfl, rfl, rfl⟩

end SupplierHub

namespace SupplierHub

/-- C4 (amended): `generateSummary` renders two fixed headings — Enterprise
Applications and Basic Examples — and under each lists exactly the
registered examples whose own `category` string equals `"enterprise"`
resp. `"basic"`, in registry order; its output depends on nothing else, so
an example with any other category string is omitted from the summary
entirely rather than appearing under its own heading. -/
theorem c4_summary_amended (r1 r2 : List (String × ExampleConfig))
    (hent : r1.filter (fun p => p.2.category == "enterprise")
          = r2.filter (fun p => p.2.category == "enterprise"))
    (hbas : r1.filter (fun p => p.2.category == "basic")
          = r2.filter (fun p => p.2.category == "basic")) :
    generateSummaryFn r1 = generateSummaryFn r2 := by
  simp only [generateSummaryFn, hent, hbas]

/-- C4 witness: appending a `governance`-category example to the registry
leaves the summary unchanged, because the two registries agree on their
enterprise and basic sublists. -/
theorem c4_summary_amended_witness :
    generateSummaryFn (EXAMPLES_MAP ++ [("private-ballot", ghostCfg)])
      = generateSummaryFn EXAMPLES_MAP :=
  c4_summary_amended (EXAMPLES_MAP ++ [("private-ballot", ghostCfg)]) EXAMPLES_MAP rfl rfl

/-- C4 counterexample: a registry containing the example `private-ballot`
with category `governance` (no matching CategoryEntry and no fixed summary
section) produces a summary in which that example appears nowhere — not
under a `governance` heading as the claim requires; neither its id nor its
category occurs in the output at all, while the registered ids do. -/
theorem c4_summary_omits_unknown_category :
    generateSummaryFn (EXAMPLES_MAP ++ [("private-ballot", ghostCfg)])
      = generateSummaryFn EXAMPLES_MAP
    ∧ occursIn "private-ballot".data
        (generateSummaryFn (EXAMPLES_MAP ++ [("private-ballot", ghostCfg)])).data = false
    ∧ occursIn "governance".data
        (generateSummaryFn (EXAMPLES_MAP ++ [("private-ballot", ghostCfg)])).data = false
    ∧ occursIn "fhe-counter".data
        (generateSummaryFn (EXAMPLES_MAP ++ [("private-ballot", ghostCfg)])).data = true := by
  exact ⟨by decide, by decide, by decide, by decide⟩

/-- C6 (amended): for a category that resolves, the bundle always succeeds;
its components list is exactly the in-order contract file names of the IDs
in `exampleIds` that resolve in the registry *and* whose contract source
exists on disk (a resolved ID with a missing source file contributes
nothing, silently); an ID that does not resolve contributes nothing and
produces exactly one non-fatal `Example not found` warning. -/
theorem c6_category_components_amended
    (cats : List (String × CategoryConfig)) (exmap : List (String × ExampleConfig))
    (tmplTree : List FsEntry) (fs : RepoFs) (categoryName : String)
    (config : CategoryConfig) (r : CatRun)
    (hlook : List.lookup categoryName cats = some config)
    (hrun : createCategoryRun cats exmap tmplTree fs categoryName = .ok r) :
    r.contractFiles = config.examples.filterMap (fun n =>
        (List.lookup n exmap).bind (fun e =>
          (List.lookup e.contractFile fs.contracts).map (fun _ => e.contractFile)))
    ∧ r.warnings = config.examples.filterMap (fun n =>
        match List.lookup n exmap with
        | none => some ("⚠️  Example not found: " ++ n)
        | some _ => none) := by
  simp only [createCategoryRun, hlook, Except.ok.injEq] at hrun
  subst hrun
  exact ⟨bundleExamples_contractFiles exmap fs config.examples,
         bundleExamples_warnings exmap fs config.examples⟩

/-- C6 witness: the spec's scenario — category `basic` listing `alpha` and
the unregistered `ghost`, with `Alpha.src` present on disk — succeeds with
exactly the one component `Alpha.src` and one warning for `ghost`. -/
theorem c6_category_components_amended_witness :
    (["Alpha.src"] : List String) = demoBasicCat.examples.filterMap (fun n =>
        (List.lookup n demoExMap).bind (fun e =>
          (List.lookup e.contractFile demoFs.contracts).map (fun _ => e.contractFile)))
    ∧ (["⚠️  Example not found: ghost"] : List String)
        = demoBasicCat.examples.filterMap (fun n =>
            match List.lookup n demoExMap with
            | none => some ("⚠️  Example not found: " ++ n)
            | some _ => none) :=
  c6_category_components_amended demoCats demoExMap [] demoFs "basic" demoBasicCat
    { templateCopied := copyFrom skipBundler []
      contractFiles := ["Alpha.src"]
      testFiles := ["Alpha.spec"]
      warnings := ["⚠️  Example not found: ghost"]
      contractWrites := [(["contracts", "Alpha.src"], "alpha source")]
      testWrites := [(["test", "Alpha.spec"], "alpha tests")] }
    rfl rfl

/-- C6 counterexample: in the same scenario but with `Alpha.src` absent
from disk, `alpha` still resolves in the registry yet contributes no
component, so the components list is empty rather than the claimed
`["Alpha.src"]` (the call itself still succeeds). -/
theorem c6_category_components_need_disk :
    runCatContractFiles (createCategoryRun demoCats demoExMap [] ⟨[], []⟩ "basic") = some []
    ∧ ([] : List String) ≠ ["Alpha.src"] := by
  exact ⟨rfl, by decide⟩

end SupplierHub

namespace SupplierHub

/-- C10: the bundler's recursive template copy skips entries named
`contracts` or `test` (in addition to `node_modules`, `artifacts`,
`cache`, `.git`) at any depth, so no template file ever lands under a path
containing a `contracts` or `test` component; consequently every file a
bundle writes under `contracts/` is the payload copy of an ID of the
category that resolves in the registry and whose source exists on disk.
The single-example materializer's copy excludes only the four
cache/VCS names and does copy the template's `contracts/` content. -/
theorem c10_bundler_skips_payload_dirs :
    (∀ (tmplTree : List FsEntry) (p : List String) (c : String),
        (p, c) ∈ copyFrom skipBundler tmplTree → "contracts" ∉ p ∧ "test" ∉ p)
    ∧ (∀ (cats : List (String × CategoryConfig)) (exmap : List (String × ExampleConfig))
        (tmplTree : List FsEntry) (fs : RepoFs) (categoryName : String)
        (config : CategoryConfig) (r : CatRun) (f : String),
        List.lookup categoryName cats = some config →
        createCategoryRun cats exmap tmplTree fs categoryName = .ok r →
        ["contracts", f] ∈ bundleWrittenPaths r →
        ∃ n e content, n ∈ config.examples ∧ List.lookup n exmap = some e
          ∧ f = e.contractFile ∧ List.lookup e.contractFile fs.contracts = some content)
    ∧ (copyFrom skipExample [FsEntry.dir "contracts" [FsEntry.file "Base.sol" "base"]]
          = [(["contracts", "Base.sol"], "base")]
        ∧ copyFrom skipBundler [FsEntry.dir "contracts" [FsEntry.file "Base.sol" "base"]] = []
        ∧ copyFrom skipBundler
            [FsEntry.dir "scripts" [FsEntry.dir "test" [FsEntry.file "helper.ts" "h"]]] = []
        ∧ copyFrom skipExample [FsEntry.dir "node_modules" [FsEntry.file "x.js" "m"]] = []) := by
  refine ⟨?_, ?_, ?_⟩
  · intro tmplTree p c hmem
    have h := copyFrom_avoids_skip skipBundler tmplTree p c hmem
    exact ⟨fun hc => (h "contracts" hc) (by decide), fun ht => (h "test" ht) (by decide)⟩
  · intro cats exmap tmplTree fs categoryName config r f hlook hrun hmem
    simp only [createCategoryRun, hlook, Except.ok.injEq] at hrun
    subst hrun
    simp only [bundleWrittenPaths, List.mem_append] at hmem
    rcases hmem with ((h1 | h2) | h3) | h4
    · rcases List.mem_map.mp h1 with ⟨⟨p, c⟩, hpc, hfst⟩
      have hp : "contracts" ∈ p := by
        have : p = ["contracts", f] := hfst
        rw [this]
        simp
      exact ((copyFrom_avoids_skip skipBundler tmplTree p c hpc "contracts" hp)
        (by decide)).elim
    · rw [bundleExamples_contractWrites] at h2
      rcases List.mem_map.mp h2 with ⟨pc, hpc, hfst⟩
      rcases List.mem_filterMap.mp hpc with ⟨n, hn, hfn⟩
      rcases Option.bind_eq_some.mp hfn with ⟨e, he, hmap⟩
      rcases Option.map_eq_some'.mp hmap with ⟨content, hcontent, hpc2⟩
      refine ⟨n, e, content, hn, he, ?_, hcontent⟩
      rw [← hpc2] at hfst
      simp at hfst
      exact hfst.symm
    · rw [bundleExamples_testWrites] at h3
      rcases List.mem_map.mp h3 with ⟨pc, hpc, hfst⟩
      rcases List.mem_filterMap.mp hpc with ⟨n, hn, hfn⟩
      rcases Option.bind_eq_some.mp hfn with ⟨e, he, hmap⟩
      rcases Option.map_eq_some'.mp hmap with ⟨content, hcontent, hpc2⟩
      rw [← hpc2] at hfst
      simp at hfst
    · simp at h4
  · refine ⟨?_, ?_, ?_, ?_⟩ <;> simp [copyFrom, skipExample, skipBundler]

/-- C10 witness: a template file at the root (not named after the payload
directories) is copied by the bundler, and its path indeed avoids the
`contracts` and `test` components. -/
theorem c10_bundler_skips_payload_dirs_witness :
    "contracts" ∉ (["README.md"] : List String) ∧ "test" ∉ (["README.md"] : List String) :=
  (c10_bundler_skips_payload_dirs).1 [FsEntry.file "README.md" "readme"] ["README.md"] "readme"
    (by simp [copyFrom, skipBundler])

end SupplierHub
